import Mathlib

/-!
Verification of the dbm-eval benchmarking dashboard.

We shallowly embed the JavaScript fragments the specification talks about:
the metric value normalizers of `src/frontend/src/FileUpload.jsx`
(`safeNumber`, `safeDivide`, `chartValue`), the comparison schema builders
(`performanceMetrics`, `dataMetrics`, `systemMetrics`), the tooltip renderer
(`CustomTooltip`), the mongoose report schema of `src/backend/model/report.js`,
and the dataset upload route of `src/backend/routes/datasets.js`.

JavaScript numbers are modelled as an idealized sum of NaN, signed infinity
and exact rationals (negative zero is not distinguished from zero; none of the
verified code paths depend on it).  String-to-number coercion (`Number(s)`,
the coercion performed by the global `isNaN`) is modelled by a parser that
covers decimal literals, signed literals, `Infinity` and the empty string;
other numeric literal forms of JavaScript (hexadecimal, exponents) are out of
scope and parse to NaN here.
-/

/-- An idealized JavaScript number: NaN, a signed infinity, or a finite
(exact rational) value. -/
inductive JSNum where
  | nan : JSNum
  | inf (neg : Bool) : JSNum
  | fin (q : ℚ) : JSNum
deriving DecidableEq, Repr

/-- A JavaScript value as it reaches the normalizers: `null`, `undefined`,
a number, or a string. -/
inductive JSValue where
  | null : JSValue
  | undef : JSValue
  | num (n : JSNum) : JSValue
  | str (s : String) : JSValue
deriving DecidableEq, Repr

namespace JSNum

/-- `Number.isNaN` on our number model. -/
def isNaN : JSNum → Bool
  | .nan => true
  | _ => false

end JSNum

/-- Digit list to natural number, most significant digit first.  Only applied
to lists already checked to consist of digits. -/
def digitsToNat (cs : List Char) : ℕ :=
  cs.foldl (fun a c => a * 10 + (c.toNat - 48)) 0

/-- Parse an unsigned decimal literal (`"12"`, `"12.5"`, `".5"`, `"5."`)
into an exact rational; `none` when the characters do not form such a
literal. -/
def parseDec (cs : List Char) : Option ℚ :=
  match cs.span (fun c => c ≠ '.') with
  | (intPart, []) =>
      if intPart ≠ [] ∧ intPart.all (fun c => c.isDigit)
      then some (digitsToNat intPart) else none
  | (intPart, _ :: fracPart) =>
      if (intPart ≠ [] ∨ fracPart ≠ []) ∧ intPart.all (fun c => c.isDigit)
          ∧ fracPart.all (fun c => c.isDigit)
      then some ((digitsToNat intPart : ℚ)
            + (digitsToNat fracPart : ℚ) / 10 ^ fracPart.length)
      else none

/-- Parse an optionally-signed trimmed literal: `Infinity`, or a decimal
literal; everything else is NaN. -/
def parseSigned (cs : List Char) (neg : Bool) : JSNum :=
  if cs = "Infinity".toList then .inf neg
  else
    match parseDec cs with
    | some q => .fin (if neg then -q else q)
    | none => .nan

/-- JavaScript `Number(string)` (ToNumber on strings), restricted to the
literal forms described in the module docstring: surrounding whitespace is
trimmed, the empty string is 0, and a sign may precede the literal. -/
def parseJS (s : String) : JSNum :=
  let cs := ((s.toList.dropWhile Char.isWhitespace).reverse.dropWhile
      Char.isWhitespace).reverse
  match cs with
  | [] => .fin 0
  | c :: rest =>
      if c = '-' then parseSigned rest true
      else if c = '+' then parseSigned rest false
      else parseSigned cs false

/-- JavaScript ToNumber on our value model: `null` coerces to 0, `undefined`
to NaN, strings are parsed. -/
def toNumber : JSValue → JSNum
  | .null => .fin 0
  | .undef => .nan
  | .num n => n
  | .str s => parseJS s

/-- The global `isNaN(value)`: coerce with ToNumber, then test NaN. -/
def jsIsNaN (v : JSValue) : Bool :=
  (toNumber v).isNaN

/-- JavaScript truthiness of a value: `null`, `undefined`, NaN, 0 and the
empty string are falsy. -/
def truthy : JSValue → Bool
  | .null => false
  | .undef => false
  | .num .nan => false
  | .num (.inf _) => true
  | .num (.fin q) => q ≠ 0
  | .str s => s ≠ ""

/-- IEEE-style division on the number model (signed zero ignored): NaN is
absorbing, `inf/inf = NaN`, `fin/inf = 0`, `x/0` is NaN at 0 and a signed
infinity otherwise. -/
def jsDivNum : JSNum → JSNum → JSNum
  | .nan, _ => .nan
  | _, .nan => .nan
  | .inf _, .inf _ => .nan
  | .inf a, .fin q => .inf (xor a (decide (q < 0)))
  | .fin _, .inf _ => .fin 0
  | .fin a, .fin b =>
      if b = 0 then (if a = 0 then .nan else .inf (decide (a < 0)))
      else .fin (a / b)

/-- JavaScript `a / b` on values: coerce both sides, then divide. -/
def jsDiv (a b : JSValue) : JSNum :=
  jsDivNum (toNumber a) (toNumber b)

/-- `Number(x).toFixed(d)` applied to an exact rational: round `x * 10^d` to
the nearest integer and scale back.  (JavaScript rounds on the binary double
representation; we round the exact value.) -/
def roundTo (q : ℚ) (d : ℕ) : ℚ :=
  ((round (q * 10 ^ d) : ℤ) : ℚ) / 10 ^ d

/-- The result of `safeNumber`: the `"N/A"` sentinel, a fixed-decimal string
carrying the rounded value, or the strings `toFixed` produces on the
non-finite numbers. -/
inductive SafeNumResult where
  | na : SafeNumResult
  | numStr (q : ℚ) : SafeNumResult
  | infStr (neg : Bool) : SafeNumResult
  | nanStr : SafeNumResult
deriving DecidableEq, Repr

/-- `Number(value).toFixed(decimals)` on the number model. -/
def toFixedRes : JSNum → ℕ → SafeNumResult
  | .fin q, d => .numStr (roundTo q d)
  | .inf b, _ => .infStr b
  | .nan, _ => .nanStr

/-- `safeNumber` from FileUpload.jsx:
`value !== undefined && value !== null && !isNaN(value)
  ? Number(value).toFixed(decimals) : "N/A"`. -/
def safeNumber (value : JSValue) (decimals : ℕ) : SafeNumResult :=
  if value ≠ .undef ∧ value ≠ .null ∧ jsIsNaN value = false
  then toFixedRes (toNumber value) decimals
  else .na

/-- `safeDivide` from FileUpload.jsx:
`b && !isNaN(a / b) && b !== 0 ? a / b : 0`. -/
def safeDivide (a b : JSValue) : JSNum :=
  if truthy b = true ∧ (jsDiv a b).isNaN = false ∧ b ≠ .num (.fin 0)
  then jsDiv a b
  else .fin 0

/-- `chartValue` from FileUpload.jsx:
`(value !== undefined && value !== null && !isNaN(value))
  ? Number(value) : null`. -/
def chartValue (value : JSValue) : Option JSNum :=
  if value ≠ .undef ∧ value ≠ .null ∧ jsIsNaN value = false
  then some (toNumber value)
  else none

/-- An engine metrics object as consumed by the schema builders: each field
may hold any JavaScript value; a missing property reads as `undefined`. -/
structure EngineMetrics where
  execution_time_seconds : JSValue
  memory_usage_snapshot_mb : JSValue
  memory_usage_avg_mb : JSValue
  cpu_percent_snapshot : JSValue
  cpu_percent_avg : JSValue
  throughput_rows_per_sec : JSValue
  row_count : JSValue
  column_count : JSValue
  file_size_bytes : JSValue
  avg_row_size_bytes : JSValue
  memory_percent_snapshot : JSValue
  memory_percent_avg : JSValue
deriving DecidableEq, Repr

/-- An engine metrics object with every property absent. -/
def emptyMetrics : EngineMetrics :=
  ⟨.undef, .undef, .undef, .undef, .undef, .undef,
   .undef, .undef, .undef, .undef, .undef, .undef⟩

/-- The `/upload-and-process` response shape: each engine object may be
absent. -/
structure CompData where
  scidb : Option EngineMetrics
  mapreduce : Option EngineMetrics
deriving DecidableEq, Repr

/-- Optional chaining `obj?.field`: reads `undefined` when the object is
absent. -/
def optChain (o : Option EngineMetrics) (f : EngineMetrics → JSValue) : JSValue :=
  match o with
  | none => .undef
  | some m => f m

/-- One labeled row of the comparison schema. -/
structure Row where
  name : String
  scidb : Option JSNum
  mapreduce : Option JSNum
deriving DecidableEq, Repr

/-- `performanceMetrics` from FileUpload.jsx: empty when `data` is null,
otherwise the four fixed performance rows. -/
def performanceMetrics (data : Option CompData) : List Row :=
  match data with
  | none => []
  | some d =>
      [ { name := "Execution Time (s)"
          scidb := chartValue (optChain d.scidb (fun m => m.execution_time_seconds))
          mapreduce := chartValue (optChain d.mapreduce (fun m => m.execution_time_seconds)) },
        { name := "Memory (MB)"
          scidb := chartValue (.num (safeDivide
            (optChain d.scidb (fun m => m.memory_usage_snapshot_mb)) (.num (.fin 1))))
          mapreduce := chartValue (.num (safeDivide
            (optChain d.mapreduce (fun m => m.memory_usage_avg_mb)) (.num (.fin 1)))) },
        { name := "CPU (%)"
          scidb := chartValue (optChain d.scidb (fun m => m.cpu_percent_snapshot))
          mapreduce := chartValue (optChain d.mapreduce (fun m => m.cpu_percent_avg)) },
        { name := "Throughput (rows/s)"
          scidb := chartValue (optChain d.scidb (fun m => m.throughput_rows_per_sec))
          mapreduce := chartValue (optChain d.mapreduce (fun m => m.throughput_rows_per_sec)) } ]

/-- `dataMetrics` from FileUpload.jsx. -/
def dataMetrics (data : Option CompData) : List Row :=
  match data with
  | none => []
  | some d =>
      [ { name := "Rows Processed"
          scidb := chartValue (optChain d.scidb (fun m => m.row_count))
          mapreduce := chartValue (optChain d.mapreduce (fun m => m.row_count)) },
        { name := "Columns"
          scidb := chartValue (optChain d.scidb (fun m => m.column_count))
          mapreduce := chartValue (optChain d.mapreduce (fun m => m.column_count)) },
        { name := "File Size (KB)"
          scidb := chartValue (.num (safeDivide
            (optChain d.scidb (fun m => m.file_size_bytes)) (.num (.fin 1024))))
          mapreduce := chartValue (.num (safeDivide
            (optChain d.mapreduce (fun m => m.file_size_bytes)) (.num (.fin 1024)))) },
        { name := "Avg Row Size (bytes)"
          scidb := chartValue (optChain d.scidb (fun m => m.avg_row_size_bytes))
          mapreduce := chartValue (optChain d.mapreduce (fun m => m.avg_row_size_bytes)) } ]

/-- `systemMetrics` from FileUpload.jsx. -/
def systemMetrics (data : Option CompData) : List Row :=
  match data with
  | none => []
  | some d =>
      [ { name := "Memory Usage (%)"
          scidb := chartValue (optChain d.scidb (fun m => m.memory_percent_snapshot))
          mapreduce := chartValue (optChain d.mapreduce (fun m => m.memory_percent_avg)) } ]

/-- The chart/summary section of the page; present only when a response has
arrived.  We record the three row lists it charts. -/
structure ChartSection where
  perfData : List Row
  dataStats : List Row
  sysStats : List Row
deriving DecidableEq, Repr

/-- The rendered page shape of the `FileUpload` component: the upload form is
always present; the summary/chart section renders only under
`response && ...`. -/
structure RenderedPage where
  uploadForm : Bool
  chartSection : Option ChartSection
deriving DecidableEq, Repr

/-- The render function of `FileUpload`: `perfData`, `dataStats` and
`sysStats` are computed from the (possibly null) response, and the whole
summary block is guarded by the truthiness of `response`. -/
def renderFileUpload (response : Option CompData) : RenderedPage :=
  { uploadForm := true
    chartSection :=
      match response with
      | none => none
      | some d =>
          some { perfData := performanceMetrics (some d)
                 dataStats := dataMetrics (some d)
                 sysStats := systemMetrics (some d) } }

/-- A tooltip payload entry as Recharts hands it over: any of its properties
may hold any value; a payload slot may itself be `undefined`. -/
structure TooltipEntry where
  color : JSValue
  name : String
  value : JSValue
deriving DecidableEq, Repr

/-- The displayed value text of one tooltip line:
`typeof entry.value === "number" && !isNaN(entry.value) && entry.value !== null
  ? entry.value.toFixed(2) : "N/A"`.
(The `!== null` conjunct is vacuous after the typeof check.) -/
def entryValueDisplay (v : JSValue) : SafeNumResult :=
  match v with
  | .num n => if n.isNaN then .na else toFixedRes n 2
  | _ => .na

/-- Rendering of one payload entry by `CustomTooltip`:
`if (!entry || entry.color === undefined) return null;` then a line with the
entry name and the defensively formatted value. -/
def renderEntry : Option TooltipEntry → Option (String × SafeNumResult)
  | none => none
  | some entry =>
      if entry.color = .undef then none
      else some (entry.name, entryValueDisplay entry.value)

/-- `CustomTooltip` from FileUpload.jsx: renders nothing unless active with a
nonempty payload; otherwise the label plus one (possibly skipped) line per
entry. -/
def CustomTooltip (active : Bool) (payload : Option (List (Option TooltipEntry)))
    (label : String) : Option (String × List (Option (String × SafeNumResult))) :=
  match payload with
  | none => none
  | some l =>
      if active = true ∧ l.length ≠ 0
      then some (label, l.map renderEntry)
      else none

/-! ## Comparison Report Store (src/backend/model/report.js)

The mongoose schema declares `faster_system` as a required `String` and the
five diff fields as required `Number`, with `timestamps: true`.  Creation is
mongoose document validation followed by insertion: each schema path is
checked in declaration order (`required` fails on null/undefined, and on a
`String` path also on the empty string; the cast fails when the value cannot
be coerced to the declared type — for `Number`, the empty string casts to
null, which then fails `required`, and any other value is rejected when
`Number(value)` is NaN; `String` accepts strings and casts numbers), and the
names of the failing paths make up the `ValidationError`.  On success the
stored document carries an assigned identifier and the
`createdAt`/`updatedAt` timestamps. -/

/-- The body handed to `Report` creation: the value found at each schema
path (a missing property reads as `undefined`). -/
structure ReportInput where
  faster_system : JSValue
  execution_time_diff : JSValue
  cpu_diff : JSValue
  memory_diff : JSValue
  disk_read_diff : JSValue
  disk_write_diff : JSValue
deriving DecidableEq, Repr

/-- Validity of a value at a required `String` path: `required` rejects
null/undefined and — on `String` paths — the empty string
(`SchemaString.checkRequired` demands a nonempty string); nonempty strings
pass, numbers cast to their string form. -/
def stringFieldValid : JSValue → Bool
  | .str s => s ≠ ""
  | .num _ => true
  | _ => false

/-- Validity of a value at a required `Number` path: `required` rejects
null/undefined; the empty string casts to null and then also fails
`required`; any other value is cast with `Number(value)` and rejected on
NaN. -/
def numberFieldValid : JSValue → Bool
  | .null => false
  | .undef => false
  | .str "" => false
  | v => !(toNumber v).isNaN

/-- The string stored at a `String` path after casting.  The digit string a
number casts to is modelled schematically (no theorem below depends on
it). -/
def storedString : JSValue → String
  | .str s => s
  | .num .nan => "NaN"
  | .num (.inf true) => "-Infinity"
  | .num (.inf false) => "Infinity"
  | .num (.fin q) => toString q
  | _ => ""

/-- The names of the schema paths that fail validation, in schema
declaration order. -/
def validateReport (r : ReportInput) : List String :=
  (if stringFieldValid r.faster_system then [] else ["faster_system"])
    ++ (if numberFieldValid r.execution_time_diff then [] else ["execution_time_diff"])
    ++ (if numberFieldValid r.cpu_diff then [] else ["cpu_diff"])
    ++ (if numberFieldValid r.memory_diff then [] else ["memory_diff"])
    ++ (if numberFieldValid r.disk_read_diff then [] else ["disk_read_diff"])
    ++ (if numberFieldValid r.disk_write_diff then [] else ["disk_write_diff"])

/-- A stored report document: the cast field values plus the assigned
identifier and the two timestamps. -/
structure StoredReport where
  id : ℕ
  faster_system : String
  execution_time_diff : JSNum
  cpu_diff : JSNum
  memory_diff : JSNum
  disk_read_diff : JSNum
  disk_write_diff : JSNum
  createdAt : ℕ
  updatedAt : ℕ
deriving DecidableEq, Repr

/-- Result of `create(report)`. -/
inductive CreateResult where
  | ok (r : StoredReport) : CreateResult
  | validationError (fields : List String) : CreateResult
deriving DecidableEq, Repr

/-- `create(report)`: validate every schema path; on failure the
`ValidationError` names the failing paths, on success the stored record
carries the fresh identifier `newId` and `now` as both timestamps. -/
def createReport (r : ReportInput) (newId now : ℕ) : CreateResult :=
  match validateReport r with
  | [] =>
      .ok { id := newId
            faster_system := storedString r.faster_system
            execution_time_diff := toNumber r.execution_time_diff
            cpu_diff := toNumber r.cpu_diff
            memory_diff := toNumber r.memory_diff
            disk_read_diff := toNumber r.disk_read_diff
            disk_write_diff := toNumber r.disk_write_diff
            createdAt := now
            updatedAt := now }
  | errs => .validationError errs

/-! ## Upload Ingress (src/backend/routes/datasets.js) -/

/-- The multer file-size limit: `5 * 1024 * 1024 * 1024` bytes. -/
def maxFileSize : ℕ := 5 * 1024 * 1024 * 1024

/-- An incoming multipart file: its client-side name and its size in
bytes. -/
structure IncomingFile where
  originalname : String
  size : ℕ
deriving DecidableEq, Repr

/-- `path.extname`: the suffix of the name from its last dot, empty when
there is no dot or the only dot is the leading character.  (Names here do
not contain directory separators.) -/
def extname (s : String) : String :=
  let cs := s.toList
  let tail := cs.reverse.takeWhile (fun c => c ≠ '.')
  if tail.length + 1 < cs.length then String.mk ('.' :: tail.reverse) else ""

/-- The 201 response body of `POST /dataset/upload`. -/
structure UploadBody where
  message : String
  uploadId : String
  filename : String
  path : String
  size : ℕ
deriving DecidableEq, Repr

/-- Outcome of the upload route: created (201 with body), missing file
(400 with an error object), or the multer size-limit rejection. -/
inductive UploadOutcome where
  | created (body : UploadBody) : UploadOutcome
  | missingFile : UploadOutcome
  | sizeLimitExceeded : UploadOutcome
deriving DecidableEq, Repr

/-- HTTP status of each outcome (multer size-limit errors surface through
the express error handler, not as a 201). -/
def uploadStatus : UploadOutcome → ℕ
  | .created _ => 201
  | .missingFile => 400
  | .sizeLimitExceeded => 500

/-- The error object of a failed upload, when the route itself builds one. -/
def uploadErrorBody : UploadOutcome → Option String
  | .missingFile => some "Dataset file is required"
  | _ => none

/-- `POST /dataset/upload`: multer stores the file under a fresh UUID plus
the original extension (rejecting files over the size limit), then the
handler answers 400 when no file is present and otherwise 201 with a body
whose `uploadId` is a second, separately generated UUID.  `gen` is the UUID
supply: `gen 0` is the value drawn for the storage filename, `gen 1` the
one drawn for `uploadId`. -/
def datasetUpload (incoming : Option IncomingFile) (gen : ℕ → String) : UploadOutcome :=
  match incoming with
  | none => .missingFile
  | some f =>
      if f.size ≤ maxFileSize then
        .created { message := "Dataset uploaded successfully"
                   uploadId := gen 1
                   filename := gen 0 ++ extname f.originalname
                   path := "./uploads/" ++ (gen 0 ++ extname f.originalname)
                   size := f.size }
      else .sizeLimitExceeded

/-! ## Helper lemmas -/

/-- A nonempty string has nonzero length. -/
theorem length_ne_zero_of_ne_empty (s : String) (h : s ≠ "") : s.length ≠ 0 := by
  cases s with
  | mk data =>
    simp [String.length]
    intro hd
    exact h (by simp [hd])

/-- Membership in an if-guarded singleton list. -/
theorem mem_iteNil (a b : String) (c : Prop) [Decidable c] :
    (a ∈ (if c then ([] : List String) else [b])) ↔ (¬c ∧ a = b) := by
  split <;> simp_all

/-- Emptiness of an if-guarded singleton list. -/
theorem iteNil_eq_nil (b : String) (c : Prop) [Decidable c] :
    ((if c then ([] : List String) else [b]) = []) ↔ c := by
  split <;> simp_all

/-! ## Claims -/

/-- C1 counterexample: `safeNumber(Infinity, 2)` is the string `"Infinity"`
(`toFixed` applied to an infinite value), not the `"N/A"` sentinel, although
`Infinity` is not a finite number: the guard uses `isNaN`, not
`isFinite`. -/
theorem safeNumber_infinity_counterexample :
    safeNumber (.num (.inf false)) 2 = .infStr false ∧
    SafeNumResult.infStr false ≠ .na := by
  exact ⟨by decide, by decide⟩

/-- C1 (amended): `safeNumber(value, d)` returns the `"N/A"` sentinel exactly
when `value` is null, undefined, or coerces to NaN under `isNaN`; when the
coerced value is a finite number it returns that value rounded to `d`
decimals; when the coerced value is an infinity it returns the corresponding
infinity string. -/
theorem safeNumber_behavior (v : JSValue) (d : ℕ) :
    (safeNumber v d = .na ↔ (v = .null ∨ v = .undef ∨ jsIsNaN v = true)) ∧
    (∀ q : ℚ, v ≠ .null → v ≠ .undef → toNumber v = .fin q →
      safeNumber v d = .numStr (roundTo q d)) ∧
    (∀ b : Bool, v ≠ .null → v ≠ .undef → toNumber v = .inf b →
      safeNumber v d = .infStr b) := by
  refine ⟨?_, ?_, ?_⟩
  · unfold safeNumber
    split
    · rename_i h
      obtain ⟨h1, h2, h3⟩ := h
      constructor
      · intro hna
        cases htn : toNumber v <;> simp [toFixedRes, htn] at hna
      · rintro (rfl | rfl | hb)
        · exact absurd rfl h2
        · exact absurd rfl h1
        · rw [h3] at hb
          cases hb
    · rename_i h
      have hdis : v = .undef ∨ v = .null ∨ jsIsNaN v = true := by
        by_contra hc
        push_neg at hc
        refine h ⟨hc.1, hc.2.1, ?_⟩
        cases hj : jsIsNaN v
        · rfl
        · exact absurd hj hc.2.2
      simp only [true_iff]
      tauto
  · intro q h1 h2 h3
    have hn : jsIsNaN v = false := by simp [jsIsNaN, h3, JSNum.isNaN]
    unfold safeNumber
    rw [if_pos ⟨h2, h1, hn⟩, h3]
    rfl
  · intro b h1 h2 h3
    have hn : jsIsNaN v = false := by simp [jsIsNaN, h3, JSNum.isNaN]
    unfold safeNumber
    rw [if_pos ⟨h2, h1, hn⟩, h3]
    rfl

/-- C1 witness: a concrete finite value is rounded, not replaced by the
sentinel. -/
theorem safeNumber_behavior_witness :
    safeNumber (.num (.fin 5)) 2 = .numStr (roundTo 5 2) :=
  (safeNumber_behavior (.num (.fin 5)) 2).2.1 5 (by decide) (by decide) rfl

/-- C2 counterexample: `safeDivide(Infinity, 2)` evaluates to `Infinity`, a
non-finite division result that is returned rather than replaced by `0`: the
guard tests only `isNaN(a / b)`, not finiteness. -/
theorem safeDivide_infinite_result_counterexample :
    safeDivide (.num (.inf false)) (.num (.fin 2)) = .inf false ∧
    JSNum.inf false ≠ .fin 0 := by
  exact ⟨by decide, by decide⟩

/-- C2 (amended): `safeDivide(a, b)` returns `0` when `b` is falsy (zero,
null, undefined, NaN, the empty string) or when `a / b` is NaN; otherwise it
returns `a / b`, which may be an infinity.  In particular
`safeDivide(a, 0) = 0` and `safeDivide(a, null) = 0` for every `a`. -/
theorem safeDivide_behavior (a b : JSValue) :
    safeDivide a (.num (.fin 0)) = .fin 0 ∧
    safeDivide a .null = .fin 0 ∧
    safeDivide a .undef = .fin 0 ∧
    (truthy b = false → safeDivide a b = .fin 0) ∧
    ((jsDiv a b).isNaN = true → safeDivide a b = .fin 0) ∧
    (truthy b = true → (jsDiv a b).isNaN = false → safeDivide a b = jsDiv a b) := by
  have hfalsy : ∀ c : JSValue, truthy c = false → safeDivide a c = .fin 0 := by
    intro c hc
    unfold safeDivide
    rw [if_neg]
    rintro ⟨h1, _, _⟩
    rw [hc] at h1
    cases h1
  refine ⟨hfalsy _ (by decide), hfalsy _ (by decide), hfalsy _ (by decide),
    hfalsy b, ?_, ?_⟩
  · intro h
    unfold safeDivide
    rw [if_neg]
    rintro ⟨_, h2, _⟩
    rw [h] at h2
    cases h2
  · intro h1 h2
    have hb0 : b ≠ .num (.fin 0) := by
      intro hb
      rw [hb] at h1
      have : truthy (.num (.fin 0)) = false := by decide
      rw [this] at h1
      cases h1
    unfold safeDivide
    rw [if_pos ⟨h1, h2, hb0⟩]

/-- C2 witness: an ordinary finite division passes through. -/
theorem safeDivide_behavior_witness :
    truthy (.num (.fin 2)) = true ∧
    (jsDiv (.num (.fin 1)) (.num (.fin 2))).isNaN = false ∧
    safeDivide (.num (.fin 1)) (.num (.fin 2)) = jsDiv (.num (.fin 1)) (.num (.fin 2)) :=
  ⟨by decide, by decide,
    (safeDivide_behavior (.num (.fin 1)) (.num (.fin 2))).2.2.2.2.2 (by decide) (by decide)⟩

/-- C3 counterexample: `chartValue(Infinity)` is `Infinity`, not `null`,
although `Infinity` is non-finite: the guard uses `isNaN`, not
`isFinite`. -/
theorem chartValue_infinity_counterexample :
    chartValue (.num (.inf false)) = some (.inf false) ∧
    some (JSNum.inf false) ≠ (none : Option JSNum) := by
  exact ⟨by decide, by decide⟩

/-- C3 (amended): `chartValue(value)` returns `null` exactly when `value` is
null, undefined, or coerces to NaN under `isNaN`; every other input is
returned as `Number(value)` (so infinities pass through and numeric strings
are parsed). -/
theorem chartValue_behavior (v : JSValue) :
    (chartValue v = none ↔ (v = .null ∨ v = .undef ∨ jsIsNaN v = true)) ∧
    (v ≠ .null → v ≠ .undef → jsIsNaN v = false → chartValue v = some (toNumber v)) := by
  constructor
  · unfold chartValue
    split
    · rename_i h
      obtain ⟨h1, h2, h3⟩ := h
      constructor
      · intro hna
        cases hna
      · rintro (rfl | rfl | hb)
        · exact absurd rfl h2
        · exact absurd rfl h1
        · rw [h3] at hb
          cases hb
    · rename_i h
      have hdis : v = .undef ∨ v = .null ∨ jsIsNaN v = true := by
        by_contra hc
        push_neg at hc
        refine h ⟨hc.1, hc.2.1, ?_⟩
        cases hj : jsIsNaN v
        · rfl
        · exact absurd hj hc.2.2
      simp only [true_iff]
      tauto
  · intro h1 h2 h3
    unfold chartValue
    rw [if_pos ⟨h2, h1, h3⟩]

/-- C3 witness: a concrete finite value is passed through unchanged. -/
theorem chartValue_behavior_witness :
    chartValue (.num (.fin 7)) = some (toNumber (.num (.fin 7))) :=
  (chartValue_behavior (.num (.fin 7))).2 (by decide) (by decide) (by decide)

/-- C4 (confirmed): for every data object, however many engine fields are
missing, the three schema builders emit the same fixed row names in the same
order; only the per-engine values vary. -/
theorem metricRowNames_fixed (d : CompData) :
    (performanceMetrics (some d)).map Row.name =
      ["Execution Time (s)", "Memory (MB)", "CPU (%)", "Throughput (rows/s)"] ∧
    (dataMetrics (some d)).map Row.name =
      ["Rows Processed", "Columns", "File Size (KB)", "Avg Row Size (bytes)"] ∧
    (systemMetrics (some d)).map Row.name = ["Memory Usage (%)"] :=
  ⟨rfl, rfl, rfl⟩

/-- C8 (confirmed): with a null comparison response the page renders the
upload form only — no chart section — and all three builders produce empty
row lists; rendering is a total function, so no fault is raised. -/
theorem render_null_response :
    renderFileUpload none = { uploadForm := true, chartSection := none } ∧
    performanceMetrics none = [] ∧
    dataMetrics none = [] ∧
    systemMetrics none = [] :=
  ⟨rfl, rfl, rfl, rfl⟩

/-- C9 (confirmed): `CustomTooltip` is total (never faults): undefined
payload entries and entries without a color are skipped, any value that is
not a non-NaN number renders as the `"N/A"` placeholder, and an inactive or
empty/absent payload renders nothing. -/
theorem customTooltip_defensive (e : TooltipEntry)
    (l : List (Option TooltipEntry)) (label : String) :
    renderEntry none = none ∧
    (e.color = .undef → renderEntry (some e) = none) ∧
    (e.color ≠ .undef →
      renderEntry (some e) = some (e.name, entryValueDisplay e.value)) ∧
    (∀ v : JSValue, (∀ n : JSNum, v ≠ .num n) → entryValueDisplay v = .na) ∧
    entryValueDisplay (.num .nan) = .na ∧
    CustomTooltip false (some l) label = none ∧
    CustomTooltip true none label = none ∧
    (l ≠ [] → CustomTooltip true (some l) label = some (label, l.map renderEntry)) := by
  refine ⟨rfl, ?_, ?_, ?_, rfl, ?_, rfl, ?_⟩
  · intro h
    simp [renderEntry, h]
  · intro h
    simp [renderEntry, h]
  · intro v hv
    cases v with
    | num n => exact absurd rfl (hv n)
    | null => rfl
    | undef => rfl
    | str s => rfl
  · simp [CustomTooltip]
  · intro h
    simp [CustomTooltip, h]

/-- C9 witness: an entry carrying a NaN value renders as a line with the
`"N/A"` placeholder instead of faulting. -/
theorem customTooltip_defensive_witness :
    renderEntry (some ⟨.str "red", "scidb", .num .nan⟩) =
      some ("scidb", entryValueDisplay (.num .nan)) :=
  (customTooltip_defensive ⟨.str "red", "scidb", .num .nan⟩ [] "x").2.2.1 (by decide)

/-- C10 (confirmed): a string that parses as a finite number is silently
coerced at the normalizer boundary: `safeNumber` formats the parsed value to
the requested decimals instead of returning the sentinel, and `chartValue`
returns the parsed number instead of `null`. -/
theorem string_coercion_behavior (s : String) (q : ℚ) (d : ℕ) :
    parseJS s = .fin q →
    safeNumber (.str s) d = .numStr (roundTo q d) ∧
    chartValue (.str s) = some (.fin q) := by
  intro h
  have hn : jsIsNaN (.str s) = false := by
    simp [jsIsNaN, toNumber, h, JSNum.isNaN]
  constructor
  · unfold safeNumber
    rw [if_pos ⟨by simp, by simp, hn⟩]
    simp [toNumber, h, toFixedRes]
  · unfold chartValue
    rw [if_pos ⟨by simp, by simp, hn⟩]
    simp [toNumber, h]

/-- C10 witness: the string `"12.5"` parses to `25/2` and is coerced by both
normalizers. -/
theorem string_coercion_behavior_witness :
    parseJS "12.5" = .fin (25/2) ∧
    safeNumber (.str "12.5") 2 = .numStr (roundTo (25/2) 2) ∧
    chartValue (.str "12.5") = some (.fin (25/2)) := by
  have hp : parseJS "12.5" = .fin (25/2) := by
    simp [parseJS, parseSigned, parseDec, digitsToNat]
    norm_num
  exact ⟨hp, (string_coercion_behavior "12.5" (25/2) 2 hp).1,
    (string_coercion_behavior "12.5" (25/2) 2 hp).2⟩

/-- A report body whose `faster_system` is the string `"oracle"`, outside
the documented `{scidb, mapreduce}` value set, with well-typed numeric
fields. -/
def oracleReport : ReportInput :=
  { faster_system := .str "oracle"
    execution_time_diff := .num (.fin (3/2))
    cpu_diff := .num (.fin (16/5))
    memory_diff := .num (.fin (-10))
    disk_read_diff := .num (.fin 0)
    disk_write_diff := .num (.fin 0) }

/-- C5 counterexample: the schema declares `faster_system` as a plain
required `String` with no enum restriction, so `create` accepts the value
`"oracle"`, which lies outside `{scidb, mapreduce}`, instead of rejecting it
with a `ValidationError`. -/
theorem createReport_accepts_unknown_system :
    createReport oracleReport 1 100 = .ok
      { id := 1
        faster_system := "oracle"
        execution_time_diff := .fin (3/2)
        cpu_diff := .fin (16/5)
        memory_diff := .fin (-10)
        disk_read_diff := .fin 0
        disk_write_diff := .fin 0
        createdAt := 100
        updatedAt := 100 } ∧
    "oracle" ≠ "scidb" ∧ "oracle" ≠ "mapreduce" := by
  refine ⟨rfl, by decide, by decide⟩

/-- C5 (amended): `create(report)` fails with a `ValidationError` naming the
missing/ill-typed fields whenever `faster_system` or any of the five numeric
diff fields is absent or fails its required/cast check (for `faster_system`
the empty string also fails `required`); `faster_system` may be any nonempty
string (there is no `{scidb, mapreduce}` enum check); on success the stored
record carries the assigned identifier and timestamps. -/
theorem createReport_behavior (r : ReportInput) (i t : ℕ) :
    (validateReport r = [] →
      createReport r i t = .ok
        { id := i
          faster_system := storedString r.faster_system
          execution_time_diff := toNumber r.execution_time_diff
          cpu_diff := toNumber r.cpu_diff
          memory_diff := toNumber r.memory_diff
          disk_read_diff := toNumber r.disk_read_diff
          disk_write_diff := toNumber r.disk_write_diff
          createdAt := t
          updatedAt := t }) ∧
    (validateReport r ≠ [] → createReport r i t = .validationError (validateReport r)) ∧
    (validateReport r = [] ↔
      stringFieldValid r.faster_system = true ∧
      numberFieldValid r.execution_time_diff = true ∧
      numberFieldValid r.cpu_diff = true ∧
      numberFieldValid r.memory_diff = true ∧
      numberFieldValid r.disk_read_diff = true ∧
      numberFieldValid r.disk_write_diff = true) ∧
    ("faster_system" ∈ validateReport r ↔ stringFieldValid r.faster_system = false) ∧
    ("execution_time_diff" ∈ validateReport r ↔
      numberFieldValid r.execution_time_diff = false) ∧
    ("cpu_diff" ∈ validateReport r ↔ numberFieldValid r.cpu_diff = false) ∧
    ("memory_diff" ∈ validateReport r ↔ numberFieldValid r.memory_diff = false) ∧
    ("disk_read_diff" ∈ validateReport r ↔ numberFieldValid r.disk_read_diff = false) ∧
    ("disk_write_diff" ∈ validateReport r ↔ numberFieldValid r.disk_write_diff = false) ∧
    (∀ s : String, s ≠ "" → stringFieldValid (.str s) = true) ∧
    stringFieldValid (.str "") = false ∧
    numberFieldValid (.str "") = false := by
  refine ⟨?_, ?_, ?_, ?_, ?_, ?_, ?_, ?_, ?_,
    fun s hs => by simp [stringFieldValid, hs], rfl, rfl⟩
  · intro h
    unfold createReport
    rw [h]
  · intro h
    cases hv : validateReport r with
    | nil => exact absurd hv h
    | cons a l =>
        unfold createReport
        rw [hv]
  · simp [validateReport, List.append_eq_nil, iteNil_eq_nil]
  all_goals simp [validateReport, mem_iteNil]

/-- A fully well-typed report body. -/
def validSampleReport : ReportInput :=
  { faster_system := .str "scidb"
    execution_time_diff := .num (.fin (3/2))
    cpu_diff := .num (.fin (16/5))
    memory_diff := .num (.fin (-10))
    disk_read_diff := .num (.fin 0)
    disk_write_diff := .num (.fin 0) }

/-- C5 witness: a fully valid report is stored with the assigned identifier
and timestamps. -/
theorem createReport_behavior_witness :
    validateReport validSampleReport = [] ∧
    createReport validSampleReport 7 42 = .ok
      { id := 7
        faster_system := "scidb"
        execution_time_diff := .fin (3/2)
        cpu_diff := .fin (16/5)
        memory_diff := .fin (-10)
        disk_read_diff := .fin 0
        disk_write_diff := .fin 0
        createdAt := 42
        updatedAt := 42 } :=
  ⟨rfl, (createReport_behavior validSampleReport 7 42).1 rfl⟩

/-- C6 (confirmed): `POST /dataset/upload` answers 400 with an error object
when no file is present; any accepted file of at most 5 GiB yields 201 with
a body carrying message, uploadId, filename, path and size; a file above the
5 GiB limit is rejected by multer and does not produce a 201. -/
theorem datasetUpload_behavior (f : IncomingFile) (u : ℕ → String) :
    (datasetUpload none u = .missingFile ∧
      uploadStatus .missingFile = 400 ∧
      uploadErrorBody .missingFile = some "Dataset file is required") ∧
    (f.size ≤ maxFileSize →
      datasetUpload (some f) u = .created
        { message := "Dataset uploaded successfully"
          uploadId := u 1
          filename := u 0 ++ extname f.originalname
          path := "./uploads/" ++ (u 0 ++ extname f.originalname)
          size := f.size } ∧
      uploadStatus (datasetUpload (some f) u) = 201) ∧
    (maxFileSize < f.size →
      datasetUpload (some f) u = .sizeLimitExceeded ∧
      ∀ b : UploadBody, datasetUpload (some f) u ≠ .created b) := by
  refine ⟨⟨rfl, rfl, rfl⟩, ?_, ?_⟩
  · intro h
    have hd : datasetUpload (some f) u = .created
        { message := "Dataset uploaded successfully"
          uploadId := u 1
          filename := u 0 ++ extname f.originalname
          path := "./uploads/" ++ (u 0 ++ extname f.originalname)
          size := f.size } := by
      simp [datasetUpload, h]
    exact ⟨hd, by rw [hd]; rfl⟩
  · intro h
    have hd : datasetUpload (some f) u = .sizeLimitExceeded := by
      simp [datasetUpload, not_le.mpr h]
    refine ⟨hd, fun b hb => ?_⟩
    rw [hd] at hb
    cases hb

/-- C6 witness: a small concrete file is accepted with a 201 and the missing
file case yields a 400. -/
theorem datasetUpload_behavior_witness :
    (10 : ℕ) ≤ maxFileSize ∧
    datasetUpload (some ⟨"data.csv", 10⟩) (fun _ => "u") = .created
      { message := "Dataset uploaded successfully"
        uploadId := "u"
        filename := "u" ++ extname "data.csv"
        path := "./uploads/" ++ ("u" ++ extname "data.csv")
        size := 10 } ∧
    uploadStatus (datasetUpload (some ⟨"data.csv", 10⟩) (fun _ => "u")) = 201 := by
  have hs : (10 : ℕ) ≤ maxFileSize := by norm_num [maxFileSize]
  have h := (datasetUpload_behavior ⟨"data.csv", 10⟩ (fun _ => "u")).2.1 hs
  exact ⟨hs, h.1, h.2⟩

/-- C7 (confirmed): under the standard assumptions on the UUID supply (the
two draws differ and both have the 36-character UUID length), the returned
`uploadId` is the second draw, distinct from the storage filename (first
draw plus original extension), and it does not depend on the uploaded file
at all. -/
theorem uploadId_independent (f : IncomingFile) (gen : ℕ → String)
    (hne : gen 0 ≠ gen 1) (h0 : (gen 0).length = 36) (h1 : (gen 1).length = 36)
    (hsize : f.size ≤ maxFileSize) :
    ∃ b : UploadBody,
      datasetUpload (some f) gen = .created b ∧
      b.uploadId = gen 1 ∧
      b.filename = gen 0 ++ extname f.originalname ∧
      b.uploadId ≠ b.filename ∧
      ∀ g : IncomingFile, g.size ≤ maxFileSize →
        ∀ c : UploadBody, datasetUpload (some g) gen = .created c →
          c.uploadId = b.uploadId := by
  have hd : datasetUpload (some f) gen = .created
      { message := "Dataset uploaded successfully"
        uploadId := gen 1
        filename := gen 0 ++ extname f.originalname
        path := "./uploads/" ++ (gen 0 ++ extname f.originalname)
        size := f.size } := by
    simp [datasetUpload, hsize]
  refine ⟨_, hd, rfl, rfl, ?_, ?_⟩
  · intro hcontr
    by_cases hext : extname f.originalname = ""
    · rw [hext, String.append_empty] at hcontr
      exact hne hcontr.symm
    · have hlen := congrArg String.length hcontr
      rw [String.length_append, h0, h1] at hlen
      exact length_ne_zero_of_ne_empty _ hext (by omega)
  · intro g hg c hc
    have hdg : datasetUpload (some g) gen = .created
        { message := "Dataset uploaded successfully"
          uploadId := gen 1
          filename := gen 0 ++ extname g.originalname
          path := "./uploads/" ++ (gen 0 ++ extname g.originalname)
          size := g.size } := by
      simp [datasetUpload, hg]
    rw [hdg] at hc
    injection hc with hc
    rw [← hc]

/-- The UUID supply used as a concrete witness: two distinct 36-character
strings. -/
def uuidSupplySample : ℕ → String := fun i =>
  if i = 0 then String.mk (List.replicate 36 'a') else String.mk (List.replicate 36 'b')

/-- C7 witness: with a concrete distinct-UUID supply and a small file, the
uploadId is the second draw and differs from the storage filename. -/
theorem uploadId_independent_witness :
    uuidSupplySample 0 ≠ uuidSupplySample 1 ∧
    (uuidSupplySample 0).length = 36 ∧
    (uuidSupplySample 1).length = 36 ∧
    (10 : ℕ) ≤ maxFileSize ∧
    ∃ b : UploadBody,
      datasetUpload (some ⟨"data.csv", 10⟩) uuidSupplySample = .created b ∧
      b.uploadId = uuidSupplySample 1 ∧
      b.filename = uuidSupplySample 0 ++ extname "data.csv" ∧
      b.uploadId ≠ b.filename ∧
      ∀ g : IncomingFile, g.size ≤ maxFileSize →
        ∀ c : UploadBody, datasetUpload (some g) uuidSupplySample = .created c →
          c.uploadId = b.uploadId :=
  ⟨by decide, by decide, by decide, by norm_num [maxFileSize],
    uploadId_independent ⟨"data.csv", 10⟩ uuidSupplySample
      (by decide) (by decide) (by decide) (by norm_num [maxFileSize])⟩
